import Mathlib

/-!
Shallow embedding of the Ollama HTTP client wrapper in `src/ollama_helper.py`
(class `OllamaHelper` and the module-level convenience functions
`setup_ollama` and `ask_ai`).

The network is modelled as an oracle: every HTTP exchange is represented by
an `HttpOutcome`, either a `requests.exceptions.RequestException` raised
during the call (`exn`) or a response with a status code and an
already-parsed JSON body (`resp`).  Python exceptions that are *not*
`RequestException` (`KeyError`, `TypeError`, `AttributeError`) escape the
`except requests.exceptions.RequestException` clauses of the source, so they
appear as `Except.error` values in the results of the embedded functions,
while a caught `RequestException` never does.

Each primitive returns a `CallResult` recording the HTTP request it issues
(method, path, timeout, JSON body, streaming flag), the Python return value
(or escaping exception), and the lines it prints to standard output.
-/

/-- JSON values, as produced by `response.json()`. -/
inductive Json where
  | null
  | bool (b : Bool)
  | num (n : Int)
  | str (s : String)
  | arr (items : List Json)
  | obj (fields : List (String × Json))

/-- Python exceptions other than `requests.exceptions.RequestException`
that the source code can raise; these are not caught by any handler in
`ollama_helper.py` and therefore propagate to the caller. -/
inductive PyExn where
  | keyError (k : String)
  | typeError
  | attributeError
deriving DecidableEq

/-- Outcome of one HTTP exchange: either the underlying `requests` call
raised a `RequestException` (with a human-readable message), or the server
answered with a status code and a JSON body. -/
inductive HttpOutcome where
  | exn (msg : String)
  | resp (status : Nat) (body : Json)

/-- First-occurrence lookup in a JSON object's field list, the semantics of
`d[k]` / `d.get(k)` on a Python dict rendered as an association list. -/
def lookupKV (fields : List (String × Json)) (k : String) : Option Json :=
  match fields with
  | [] => none
  | (k2, v) :: rest => if k2 = k then some v else lookupKV rest k

/-- Python dict update `d[k] = v` on an association list: replace the value
at the first occurrence of `k` keeping its position, else append. -/
def dictInsert (fields : List (String × Json)) (k : String) (v : Json) :
    List (String × Json) :=
  match fields with
  | [] => [(k, v)]
  | (k2, v2) :: rest =>
    if k2 = k then (k2, v) :: rest else (k2, v2) :: dictInsert rest k v

/-- Python `j.get(k, default)`: defined on dicts, `AttributeError` on any
other JSON value. -/
def jsonGet (j : Json) (k : String) (default : Json) : Except PyExn Json :=
  match j with
  | Json.obj fields => Except.ok ((lookupKV fields k).getD default)
  | _ => Except.error PyExn.attributeError

/-- Python `j[k]` for a string key: value lookup on dicts (`KeyError` when
the key is missing), `TypeError` on every other JSON value. -/
def jsonIndex (j : Json) (k : String) : Except PyExn Json :=
  match j with
  | Json.obj fields =>
    match lookupKV fields k with
    | some v => Except.ok v
    | none => Except.error (PyExn.keyError k)
  | _ => Except.error PyExn.typeError

/-- Python `for x in j`: lists iterate over their items, dicts over their
keys, strings over their one-character substrings; other values raise
`TypeError`. -/
def pyIter (j : Json) : Except PyExn (List Json) :=
  match j with
  | Json.arr items => Except.ok items
  | Json.obj fields => Except.ok (fields.map (fun kv => Json.str kv.1))
  | Json.str s => Except.ok (s.toList.map (fun c => Json.str (String.mk [c])))
  | _ => Except.error PyExn.typeError

/-- Python truthiness of a JSON value (`if response:`). -/
def pyTruthy (j : Json) : Bool :=
  match j with
  | Json.null => false
  | Json.bool b => b
  | Json.num n => n != 0
  | Json.str s => s != ""
  | Json.arr items => !items.isEmpty
  | Json.obj fields => !fields.isEmpty

/-- Python `s in l` for a string `s` and a list `l` of JSON values: a
string compares equal only to an equal string. -/
def pyStrMem (s : String) (l : List Json) : Bool :=
  l.any (fun j => match j with | Json.str t => t == s | _ => false)

/-- The HTTP request a primitive issues: method, path relative to the base
URL, optional `timeout=` argument, optional JSON body, `stream=` flag. -/
structure Request where
  method : String
  path : String
  timeoutVal : Option Nat
  reqBody : Option (List (String × Json))
  streamFlag : Bool

/-- Result of running one method of `OllamaHelper` against an oracle
outcome: the request issued, the Python return value (an `Except.error`
is an exception escaping the method), and the printed output lines. -/
structure CallResult (α : Type) where
  request : Request
  result : α
  output : List String

/-- `OllamaHelper.is_available`: GET `/api/tags` with `timeout=5`; true
exactly when the status code is 200; a `RequestException` is caught and
mapped to `False`. -/
def is_available (r : HttpOutcome) : CallResult Bool :=
  { request := ⟨"GET", "/api/tags", some 5, none, false⟩
    result :=
      match r with
      | HttpOutcome.exn _ => false
      | HttpOutcome.resp status _ => status == 200
    output := [] }

/-- The list comprehension `[model['name'] for model in items]`: evaluated
left to right, the first escaping exception aborts it. -/
def collectNames (items : List Json) : Except PyExn (List Json) :=
  match items with
  | [] => Except.ok []
  | m :: rest => do
    let n ← jsonIndex m "name"
    let ns ← collectNames rest
    Except.ok (n :: ns)

/-- `OllamaHelper.list_models`: GET `/api/tags` with no timeout; on status
200 it evaluates `[model['name'] for model in response.json().get('models', [])]`
(so a `KeyError`/`TypeError`/`AttributeError` raised there escapes); on any
other status it returns `[]`; a `RequestException` is caught and mapped to
`[]`. -/
def list_models (r : HttpOutcome) : CallResult (Except PyExn (List Json)) :=
  { request := ⟨"GET", "/api/tags", none, none, false⟩
    result :=
      match r with
      | HttpOutcome.exn _ => Except.ok []
      | HttpOutcome.resp status body =>
        if status = 200 then do
          let ms ← jsonGet body "models" (Json.arr [])
          let items ← pyIter ms
          collectNames items
        else Except.ok []
    output := [] }

/-- `OllamaHelper.pull_model`: POST `/api/pull` with JSON body
`{"name": model}` and `stream=True`, no timeout; true exactly when the
initial response has status 200; a `RequestException` is caught and mapped
to `False`. -/
def pull_model (model : String) (r : HttpOutcome) : CallResult Bool :=
  { request := ⟨"POST", "/api/pull", none, some [("name", Json.str model)], true⟩
    result :=
      match r with
      | HttpOutcome.exn _ => false
      | HttpOutcome.resp status _ => status == 200
    output := [] }

/-- The dict literal `{"model": model, "prompt": prompt, "stream": False,
**kwargs}` of `OllamaHelper.ask`: the three defaults in order, then the
keyword arguments merged in, a repeated key overwriting the earlier value
in place. -/
def buildAskBody (prompt model : String) (kwargs : List (String × Json)) :
    List (String × Json) :=
  kwargs.foldl (fun d kv => dictInsert d kv.1 kv.2)
    [("model", Json.str model), ("prompt", Json.str prompt),
     ("stream", Json.bool false)]

/-- `OllamaHelper.ask`: POST `/api/generate` with the merged JSON body and
`timeout=60`.  On status 200 it returns `response.json().get('response', '')`
(an `AttributeError` on a non-dict body escapes); on any other status it
returns `None`; a `RequestException` is caught, an error line is printed,
and `None` is returned. -/
def ask (prompt model : String) (kwargs : List (String × Json))
    (r : HttpOutcome) : CallResult (Except PyExn (Option Json)) :=
  { request := ⟨"POST", "/api/generate", some 60,
                some (buildAskBody prompt model kwargs), false⟩
    result :=
      match r with
      | HttpOutcome.exn _ => Except.ok none
      | HttpOutcome.resp status body =>
        if status = 200 then (jsonGet body "response" (Json.str "")).map some
        else Except.ok none
    output :=
      match r with
      | HttpOutcome.exn msg => ["Error asking Ollama: " ++ msg]
      | HttpOutcome.resp _ _ => [] }

/-- Observable outcome of `setup_ollama`: whether `list_models` and
`pull_model` were called during the run, and the printed output lines.
(`is_available` is always called; the function returns the freshly
constructed client object unchanged on every path.) -/
structure SetupResult where
  listCalled : Bool
  pullCalled : Bool
  output : List String
deriving DecidableEq

/-- Module-level `setup_ollama`: probe availability (oracle `availR`); if
unavailable print a diagnostic and return; otherwise list models (oracle
`listR`, an escaping exception propagates) and, when the target model is
not in the list, pull it (oracle `pullR`) and report success or failure,
else report it already available. -/
def setup_ollama (model : String) (availR listR pullR : HttpOutcome) :
    Except PyExn SetupResult :=
  if (is_available availR).result then
    match (list_models listR).result with
    | Except.error e => Except.error e
    | Except.ok models =>
      if !pyStrMem model models then
        Except.ok
          { listCalled := true, pullCalled := true
            output := ["📥 Pulling " ++ model ++ " model...",
              if (pull_model model pullR).result then
                "✅ " ++ model ++ " model ready!"
              else "❌ Failed to pull " ++ model ++ " model"] }
      else
        Except.ok
          { listCalled := true, pullCalled := false
            output := ["✅ " ++ model ++ " model already available!"] }
  else
    Except.ok
      { listCalled := false, pullCalled := false
        output := ["❌ Ollama server not available. Please start Ollama first."] }

/-- Module-level `ask_ai`: call `ask` on a fresh client (no extra keyword
arguments) and replace a falsy result (`None` or an empty string) by the
fixed apology; an exception escaping `ask` propagates. -/
def ask_ai (prompt model : String) (r : HttpOutcome) : Except PyExn Json :=
  match (ask prompt model [] r).result with
  | Except.error e => Except.error e
  | Except.ok none => Except.ok (Json.str "Sorry, I couldn't get a response from the AI.")
  | Except.ok (some j) =>
    Except.ok (if pyTruthy j then j
      else Json.str "Sorry, I couldn't get a response from the AI.")

/-! ### Helper lemmas about association-list merging (used by C1) -/

theorem lookupKV_dictInsert (d : List (String × Json)) (k k' : String) (v : Json) :
    lookupKV (dictInsert d k v) k' = if k = k' then some v else lookupKV d k' := by
  induction d with
  | nil => simp [dictInsert, lookupKV]
  | cons kv rest ih =>
    obtain ⟨k2, v2⟩ := kv
    by_cases h2 : k2 = k
    · subst h2
      by_cases h' : k2 = k'
      · subst h'
        simp [dictInsert, lookupKV]
      · simp [dictInsert, lookupKV, h']
    · by_cases h' : k2 = k'
      · subst h'
        have hk : ¬ k = k2 := fun hh => h2 hh.symm
        simp [dictInsert, lookupKV, h2, hk]
      · simp [dictInsert, lookupKV, h2, h', ih]

theorem lookupKV_not_mem (d : List (String × Json)) (k : String)
    (h : k ∉ d.map Prod.fst) : lookupKV d k = none := by
  induction d with
  | nil => rfl
  | cons kv rest ih =>
    obtain ⟨k2, v2⟩ := kv
    simp only [List.map_cons, List.mem_cons, not_or] at h
    have hk : k2 ≠ k := fun hh => h.1 hh.symm
    simp [lookupKV, hk, ih h.2]

theorem lookupKV_merge (kwargs : List (String × Json)) (k : String)
    (hnd : (kwargs.map Prod.fst).Nodup) (init : List (String × Json)) :
    lookupKV (kwargs.foldl (fun d kv => dictInsert d kv.1 kv.2) init) k
      = (lookupKV kwargs k <|> lookupKV init k) := by
  induction kwargs generalizing init with
  | nil => simp [lookupKV]
  | cons kv rest ih =>
    obtain ⟨k0, v0⟩ := kv
    simp only [List.map_cons, List.nodup_cons] at hnd
    rw [List.foldl_cons, ih hnd.2]
    by_cases hk : k0 = k
    · subst hk
      rw [lookupKV_not_mem rest k0 hnd.1]
      simp [lookupKV, lookupKV_dictInsert]
    · simp [lookupKV, hk, lookupKV_dictInsert]

/-- C1: for every prompt, model name and keyword-argument map (keyword keys
are distinct in Python), the JSON body that `ask` sends is exactly
`buildAskBody`, and looking up any key in that body gives the caller's
value when the caller supplied the key and the default entry of
`{"model": model, "prompt": prompt, "stream": false}` otherwise — the later
merge wins, so a caller-supplied `"stream"` overrides the default. -/
theorem ask_builds_merged_body (prompt model : String)
    (kwargs : List (String × Json)) (r : HttpOutcome) (k : String)
    (hnd : (kwargs.map Prod.fst).Nodup) :
    (ask prompt model kwargs r).request.reqBody
        = some (buildAskBody prompt model kwargs) ∧
    lookupKV (buildAskBody prompt model kwargs) k
      = (lookupKV kwargs k <|>
         lookupKV [("model", Json.str model), ("prompt", Json.str prompt),
                   ("stream", Json.bool false)] k) :=
  ⟨rfl, lookupKV_merge kwargs k hnd _⟩

/-- Witness for C1: with the single keyword argument `stream := true` the
body sent by `ask` maps `"stream"` to `true`, overriding the default. -/
theorem ask_builds_merged_body_witness :
    (([("stream", Json.bool true)].map Prod.fst).Nodup) ∧
    (ask "summarize this dataset" "llama2" [("stream", Json.bool true)]
        (HttpOutcome.exn "e")).request.reqBody
      = some (buildAskBody "summarize this dataset" "llama2"
          [("stream", Json.bool true)]) ∧
    lookupKV (buildAskBody "summarize this dataset" "llama2"
        [("stream", Json.bool true)]) "stream" = some (Json.bool true) := by
  have h := ask_builds_merged_body "summarize this dataset" "llama2"
    [("stream", Json.bool true)] (HttpOutcome.exn "e") "stream" (by decide)
  exact ⟨by decide, h.1, by rw [h.2]; rfl⟩

/-- C2: on an HTTP 200 listing whose `models` array consists of entries
whose `name` fields are `names` (in that order), `list_models` returns
exactly those names, in the same order, with no deduplication. -/
theorem list_models_preserves_names (entries : List Json) (names : List String)
    (h : List.Forall₂
      (fun e n => jsonIndex e "name" = Except.ok (Json.str n)) entries names) :
    (list_models (HttpOutcome.resp 200
        (Json.obj [("models", Json.arr entries)]))).result
      = Except.ok (names.map Json.str) := by
  have hc : collectNames entries = Except.ok (names.map Json.str) := by
    induction h with
    | nil => rfl
    | cons hd tl ih =>
      simp [collectNames, hd, ih, Bind.bind, Except.bind]
  simp [list_models, jsonGet, lookupKV, pyIter, Bind.bind, Except.bind, hc]

/-- Witness for C2: a listing with duplicate model names `a, b, a` yields
exactly `a, b, a`. -/
theorem list_models_preserves_names_witness :
    (list_models (HttpOutcome.resp 200 (Json.obj [("models", Json.arr
        [Json.obj [("name", Json.str "a")], Json.obj [("name", Json.str "b")],
         Json.obj [("name", Json.str "a")]])]))).result
      = Except.ok [Json.str "a", Json.str "b", Json.str "a"] := by
  have h : List.Forall₂
      (fun e n => jsonIndex e "name" = Except.ok (Json.str n))
      [Json.obj [("name", Json.str "a")], Json.obj [("name", Json.str "b")],
       Json.obj [("name", Json.str "a")]] ["a", "b", "a"] :=
    List.Forall₂.cons rfl (List.Forall₂.cons rfl
      (List.Forall₂.cons rfl List.Forall₂.nil))
  exact list_models_preserves_names _ _ h

/-- Counterexample for C2/C3 wording "never throws on HTTP 200": an HTTP
200 listing whose single `models` entry lacks a `name` field makes
`list_models` raise a `KeyError` that escapes to the caller. -/
theorem list_models_keyerror_counterexample :
    (list_models (HttpOutcome.resp 200
        (Json.obj [("models", Json.arr [Json.obj []])]))).result
      = Except.error (PyExn.keyError "name") := rfl

/-- C3 (amended): `list_models` returns the empty list without raising on
every non-200 status and on every network exception; but on an HTTP 200
response a models entry lacking a `name` field raises a key-lookup error
that propagates to the caller (only `RequestException` is caught). -/
theorem list_models_error_handling :
    (∀ msg, (list_models (HttpOutcome.exn msg)).result = Except.ok []) ∧
    (∀ s b, s ≠ 200 → (list_models (HttpOutcome.resp s b)).result = Except.ok []) ∧
    ((list_models (HttpOutcome.resp 200
        (Json.obj [("models", Json.arr [Json.obj [("q", Json.num 1)]])]))).result
      = Except.error (PyExn.keyError "name")) := by
  refine ⟨fun msg => rfl, fun s b hs => ?_, rfl⟩
  simp [list_models, hs]

/-- Witness for C3 (amended): a 404 listing response yields the empty list. -/
theorem list_models_error_handling_witness :
    (404 ≠ 200) ∧
    (list_models (HttpOutcome.resp 404 Json.null)).result = Except.ok [] :=
  ⟨by decide, list_models_error_handling.2.1 404 Json.null (by decide)⟩

/-- C4: on an HTTP 200 response with a JSON-object body, `ask` returns the
body's `response` field, the empty string when that field is absent; on
any other status it returns `None`. -/
theorem ask_result_spec :
    (∀ p m kw fields,
      (ask p m kw (HttpOutcome.resp 200 (Json.obj fields))).result
        = Except.ok (some ((lookupKV fields "response").getD (Json.str "")))) ∧
    (∀ p m kw s b, s ≠ 200 →
      (ask p m kw (HttpOutcome.resp s b)).result = Except.ok none) := by
  constructor
  · intro p m kw fields
    simp [ask, jsonGet, Except.map]
  · intro p m kw s b hs
    simp [ask, hs]

/-- Witness for C4: the end-to-end scenario body `{"response": "try a
histogram"}` on HTTP 200 returns exactly `"try a histogram"`; an HTTP 500
response returns `None`. -/
theorem ask_result_spec_witness :
    ((ask "summarize this dataset" "llama2" []
        (HttpOutcome.resp 200
          (Json.obj [("response", Json.str "try a histogram")]))).result
      = Except.ok (some (Json.str "try a histogram"))) ∧
    (500 ≠ 200) ∧
    ((ask "summarize this dataset" "llama2" []
        (HttpOutcome.resp 500 Json.null)).result = Except.ok none) :=
  ⟨ask_result_spec.1 "summarize this dataset" "llama2" []
      [("response", Json.str "try a histogram")],
   by decide,
   ask_result_spec.2 "summarize this dataset" "llama2" [] 500 Json.null (by decide)⟩

/-- C5: on a network failure `ask` prints a human-readable diagnostic line
and returns `None` without raising, while the other three primitives never
print anything at all (they fail silently). -/
theorem ask_only_primitive_logging :
    (∀ p m kw msg,
      (ask p m kw (HttpOutcome.exn msg)).output
          = ["Error asking Ollama: " ++ msg] ∧
      (ask p m kw (HttpOutcome.exn msg)).result = Except.ok none) ∧
    (∀ r, (is_available r).output = []) ∧
    (∀ r, (list_models r).output = []) ∧
    (∀ m r, (pull_model m r).output = []) :=
  ⟨fun _ _ _ _ => ⟨rfl, rfl⟩, fun _ => rfl, fun _ => rfl, fun _ _ => rfl⟩

/-- C6: `is_available` issues a GET against the tags endpoint with a
5-unit timeout, and its result is true exactly when the server answered
with HTTP status 200; every network exception yields false. -/
theorem is_available_spec :
    (∀ r, (is_available r).request = ⟨"GET", "/api/tags", some 5, none, false⟩) ∧
    (∀ r, ((is_available r).result = true ↔ ∃ b, r = HttpOutcome.resp 200 b)) := by
  refine ⟨fun r => rfl, fun r => ?_⟩
  cases r with
  | exn msg => simp [is_available]
  | resp s b =>
    rw [show (is_available (HttpOutcome.resp s b)).result = (s == 200) from rfl]
    constructor
    · intro h
      exact ⟨b, by rw [beq_iff_eq.mp h]⟩
    · rintro ⟨b2, hb⟩
      injection hb with h1 h2
      simp [h1]

/-- C7: `pull_model` issues a streaming POST against the pull endpoint
with body `{"name": model}` and no timeout, and its result is true exactly
when the initial response has HTTP status 200; every network exception
yields false. -/
theorem pull_model_spec :
    (∀ m r, (pull_model m r).request
        = ⟨"POST", "/api/pull", none, some [("name", Json.str m)], true⟩) ∧
    (∀ m r, ((pull_model m r).result = true ↔ ∃ b, r = HttpOutcome.resp 200 b)) := by
  refine ⟨fun m r => rfl, fun m r => ?_⟩
  cases r with
  | exn msg => simp [pull_model]
  | resp s b =>
    rw [show (pull_model m (HttpOutcome.resp s b)).result = (s == 200) from rfl]
    constructor
    · intro h
      exact ⟨b, by rw [beq_iff_eq.mp h]⟩
    · rintro ⟨b2, hb⟩
      injection hb with h1 h2
      simp [h1]

/-- C8: when the availability probe reports the server unavailable,
`setup_ollama` prints the not-available diagnostic and stops: it calls
neither `list_models` nor `pull_model` in that run. -/
theorem setup_unavailable (model : String) (availR listR pullR : HttpOutcome)
    (h : (is_available availR).result = false) :
    setup_ollama model availR listR pullR = Except.ok
      { listCalled := false, pullCalled := false
        output := ["❌ Ollama server not available. Please start Ollama first."] } := by
  simp [setup_ollama, h]

/-- Witness for C8: with a refused connection on the probe, `setup_ollama`
only prints the not-available line. -/
theorem setup_unavailable_witness :
    ((is_available (HttpOutcome.exn "connection refused")).result = false) ∧
    (setup_ollama "llama2" (HttpOutcome.exn "connection refused")
        (HttpOutcome.exn "x") (HttpOutcome.exn "y")
      = Except.ok
          { listCalled := false, pullCalled := false
            output := ["❌ Ollama server not available. Please start Ollama first."] }) :=
  ⟨rfl, setup_unavailable "llama2" _ _ _ rfl⟩

/-- C9: when the server is available and the target model occurs in the
model listing, `setup_ollama` reports the model already available and does
not call `pull_model`. -/
theorem setup_model_present (model : String) (availR listR pullR : HttpOutcome)
    (models : List Json)
    (ha : (is_available availR).result = true)
    (hl : (list_models listR).result = Except.ok models)
    (hm : pyStrMem model models = true) :
    setup_ollama model availR listR pullR = Except.ok
      { listCalled := true, pullCalled := false
        output := ["✅ " ++ model ++ " model already available!"] } := by
  simp [setup_ollama, ha, hl, hm]

/-- Witness for C9: a listing already containing `llama2` makes
`setup_ollama` report it available without pulling. -/
theorem setup_model_present_witness :
    ((is_available (HttpOutcome.resp 200 Json.null)).result = true) ∧
    ((list_models (HttpOutcome.resp 200 (Json.obj [("models",
        Json.arr [Json.obj [("name", Json.str "llama2")]])]))).result
      = Except.ok [Json.str "llama2"]) ∧
    (pyStrMem "llama2" [Json.str "llama2"] = true) ∧
    (setup_ollama "llama2" (HttpOutcome.resp 200 Json.null)
        (HttpOutcome.resp 200 (Json.obj [("models",
          Json.arr [Json.obj [("name", Json.str "llama2")]])]))
        (HttpOutcome.exn "z")
      = Except.ok
          { listCalled := true, pullCalled := false
            output := ["✅ llama2 model already available!"] }) :=
  ⟨rfl, rfl, rfl,
   setup_model_present "llama2" _ _ _ [Json.str "llama2"] rfl rfl rfl⟩

/-- C10: whenever the underlying `ask` yields `None` (for instance a
non-200 status) or an empty response string (for instance a 200 body with
no `response` field), `ask_ai` returns the same fixed apology string — the
caller cannot tell an empty successful completion from a failed one. -/
theorem ask_ai_conflates (p m : String) (r : HttpOutcome)
    (h : (ask p m [] r).result = Except.ok none ∨
         (ask p m [] r).result = Except.ok (some (Json.str ""))) :
    ask_ai p m r
      = Except.ok (Json.str "Sorry, I couldn't get a response from the AI.") := by
  rcases h with h | h
  · unfold ask_ai
    rw [h]
  · unfold ask_ai
    rw [h]
    rfl

/-- Witness for C10: a 500 response (failed completion) and a 200 response
with no `response` field (empty successful completion) both make `ask_ai`
answer with the identical apology string. -/
theorem ask_ai_conflates_witness :
    (ask_ai "q" "llama2" (HttpOutcome.resp 500 Json.null)
      = Except.ok (Json.str "Sorry, I couldn't get a response from the AI.")) ∧
    (ask_ai "q" "llama2" (HttpOutcome.resp 200 (Json.obj []))
      = Except.ok (Json.str "Sorry, I couldn't get a response from the AI.")) :=
  ⟨ask_ai_conflates "q" "llama2" _ (Or.inl rfl),
   ask_ai_conflates "q" "llama2" _ (Or.inr rfl)⟩
